import Mathlib

/-!
Verification development for the Instagram outreach and conversation engine
(directory ig_agent_Cursor): a shallow embedding of the rate limiter, the
campaign executor, account discovery, the stage classifier, the conversation
orchestrator, the repository mutations and the cleanup sweep, together with
theorems settling the specification claims against this embedding.

Conventions of the embedding:
* timestamps are `Int` seconds (Python `datetime` arithmetic is exact, so no
  truncation is modelled); 1 hour = 3600, 1 day = 86400, 7 days = 604800;
* external effects (the platform client's send/fetch results, the sentiment
  analysis result, the generic LLM responder) are passed in as parameters;
* Python dict/ORM rows become structures, the repository becomes a `List` of
  rows threaded through each operation;
* a Python `try`/`except` that swallows an exception becomes an `Except`
  value inspected by the caller.
-/

/-- Configuration surface (config.py `Settings`), with the defaults from the
environment fallbacks in config.py. -/
structure Settings where
  instagram_username : String := ""
  studio_name : String := "Your Creative Studio"
  studio_website : String := "https://yourstudio.com"
  studio_email : String := "hello@yourstudio.com"
  max_dm_per_hour : Nat := 10
  max_outreach_per_day : Nat := 50
  min_delay_between_messages : Nat := 300
  enable_auto_response : Bool := true
  enable_auto_outreach : Bool := true
  deriving Repr, DecidableEq

/-- Default settings (all config.py defaults). -/
def defaultSettings : Settings := {}

/-- Lowercase a string character-wise (Python `str.lower`, restricted to the
ASCII casing that the keyword matching in the source relies on). -/
def strLower (s : String) : String :=
  String.mk (s.data.map Char.toLower)

/-- Decide whether `needle` occurs as a contiguous sublist of `hay`. -/
def charSub (needle : List Char) : List Char → Bool
  | [] => needle.isEmpty
  | c :: rest => needle.isPrefixOf (c :: rest) || charSub needle rest

/-- Python `needle in hay` on strings: substring containment. -/
def strContains (hay needle : String) : Bool :=
  charSub needle.data hay.data

/-- The in-memory `rate_limit_tracker` dict built in
`InstagramClient.__init__` (instagram_client.py lines 20-25): both counters
start at 0 and both window starts at the client's creation instant. -/
structure RateLimitTracker where
  dms_sent : Nat
  last_dm_reset : Int
  outreach_sent : Nat
  last_outreach_reset : Int
  deriving Repr, DecidableEq

/-- A fresh tracker as `InstagramClient.__init__` creates it at time `t0`. -/
def initTracker (t0 : Int) : RateLimitTracker :=
  { dms_sent := 0, last_dm_reset := t0, outreach_sent := 0, last_outreach_reset := t0 }

/-- The two `action_type` strings accepted by `_check_rate_limit`. -/
inductive RateKind where
  | dms
  | outreach
  deriving Repr, DecidableEq

/-- `InstagramClient._check_rate_limit` (instagram_client.py lines 233-253):
for kind `dms`, reset the counter when strictly more than one hour has passed
since the last reset, then report whether `dms_sent < max_dm_per_hour`; for
kind `outreach`, the same with a one-day window and `max_outreach_per_day`.
The function mutates the tracker (the reset) but never increments a counter;
it returns the updated tracker alongside the boolean. -/
def check_rate_limit (s : Settings) (tr : RateLimitTracker) (now : Int) :
    RateKind → Bool × RateLimitTracker
  | RateKind.dms =>
    let tr2 := if now - tr.last_dm_reset > 3600 then
        { tr with dms_sent := 0, last_dm_reset := now } else tr
    (decide (tr2.dms_sent < s.max_dm_per_hour), tr2)
  | RateKind.outreach =>
    let tr2 := if now - tr.last_outreach_reset > 86400 then
        { tr with outreach_sent := 0, last_outreach_reset := now } else tr
    (decide (tr2.outreach_sent < s.max_outreach_per_day), tr2)

/-- `InstagramClient.send_dm` (instagram_client.py lines 93-111): consult
`_check_rate_limit('dms')`; when denied, return `false` without attempting a
send; otherwise attempt the platform send (its success is the external input
`direct_send_ok`), increment `dms_sent` and return `true` on success, return
`false` with no increment when the platform call raises. -/
def send_dm (s : Settings) (tr : RateLimitTracker) (now : Int)
    (direct_send_ok : Bool) : Bool × RateLimitTracker :=
  let p := check_rate_limit s tr now RateKind.dms
  if !p.1 then (false, p.2)
  else if direct_send_ok then (true, { p.2 with dms_sent := p.2.dms_sent + 1 })
  else (false, p.2)

/-- Whether `send_dm` reaches the platform send call at all (the rate permit
of `_check_rate_limit('dms')` is granted). -/
def send_dm_attempted (s : Settings) (tr : RateLimitTracker) (now : Int) : Bool :=
  (check_rate_limit s tr now RateKind.dms).1

/-- One send event as the engine performs it: a timestamp plus whether the
platform `direct_send` call would succeed at that instant. -/
structure SendEvent where
  now : Int
  direct_send_ok : Bool
  deriving Repr, DecidableEq

/-- Run a sequence of `send_dm` calls against one client tracker, counting the
`true` results. -/
def runSendDm (s : Settings) : RateLimitTracker → List SendEvent → Nat × RateLimitTracker
  | tr, [] => (0, tr)
  | tr, e :: rest =>
    let r := send_dm s tr e.now e.direct_send_ok
    let tail := runSendDm s r.2 rest
    ((if r.1 then 1 else 0) + tail.1, tail.2)

/-- Run a sequence of bare `_check_rate_limit('outreach')` checks (the only
operation the source ever defines for the outreach kind; no code path
increments `outreach_sent`), counting the `true` results. -/
def runOutreachCheck (s : Settings) : RateLimitTracker → List Int → Nat × RateLimitTracker
  | tr, [] => (0, tr)
  | tr, t :: rest =>
    let r := check_rate_limit s tr t RateKind.outreach
    let tail := runOutreachCheck s r.2 rest
    ((if r.1 then 1 else 0) + tail.1, tail.2)

/-- Keyword groups of `ConversationManager._determine_outreach_stage`
(conversation_manager.py lines 187-200). -/
def pricing_words : List String := ["pricing", "cost", "price", "how much"]

/-- Portfolio keyword group of `_determine_outreach_stage`. -/
def portfolio_words : List String := ["portfolio", "work", "examples", "samples"]

/-- Meeting keyword group of `_determine_outreach_stage`. -/
def meeting_words : List String := ["meeting", "call", "discuss", "talk"]

/-- Interest keyword group of `_determine_outreach_stage`. -/
def interest_words : List String := ["interested", "tell me more", "sounds good"]

/-- Whether any word of the group occurs in the (already lowercased) text. -/
def matchesAny (words : List String) (lowered : String) : Bool :=
  words.any (fun w => strContains lowered w)

/-- `ConversationManager._determine_outreach_stage` (conversation_manager.py
lines 187-200): lowercase the content, then first matching keyword group wins,
in the order pricing, portfolio, meeting, interest; otherwise `initial`. -/
def determine_outreach_stage (content : String) : String :=
  let c := strLower content
  if matchesAny pricing_words c then "pricing_inquiry"
  else if matchesAny portfolio_words c then "portfolio_request"
  else if matchesAny meeting_words c then "meeting_request"
  else if matchesAny interest_words c then "initial_interest"
  else "initial"

/-- Indicator list of `ConversationManager._is_outreach_response`
(conversation_manager.py lines 174-185). -/
def cm_response_indicators : List String :=
  ["thank you", "thanks", "interested", "tell me more", "pricing",
   "cost", "services", "portfolio", "website", "contact", "hello",
   "hi", "hey", "sounds good", "looks great"]

/-- `ConversationManager._is_outreach_response`: any indicator occurs in the
lowercased content. -/
def cm_is_outreach_response (content : String) : Bool :=
  matchesAny cm_response_indicators (strLower content)

/-- Indicator list of `OutreachManager._is_outreach_response`
(outreach_manager.py lines 284-295); note it is shorter than the
conversation-manager list. -/
def om_response_indicators : List String :=
  ["thank you", "thanks", "interested", "tell me more", "pricing",
   "cost", "services", "portfolio", "website", "contact"]

/-- `OutreachManager._is_outreach_response`: any indicator occurs in the
lowercased DM content. -/
def om_is_outreach_response (content : String) : Bool :=
  matchesAny om_response_indicators (strLower content)

/-- A `target_accounts` row (database.py lines 37-57), restricted to the
columns the engine reads or writes. -/
structure TargetAccount where
  username : String
  full_name : String := ""
  bio : String := ""
  follower_count : Nat := 0
  category : String := ""
  location : String := ""
  last_contacted : Option Int := none
  contact_attempts : Nat := 0
  status : String := "pending"
  deriving Repr, DecidableEq

/-- The keyword-argument bag accepted by
`DatabaseManager.update_target_account`: each field that may be passed, as an
optional value (absent kwarg = `none`). -/
structure AccountUpdate where
  status : Option String := none
  last_contacted : Option Int := none
  contact_attempts : Option Nat := none
  deriving Repr, DecidableEq

/-- Apply the kwargs of `update_target_account` to a row: each present kwarg
is written with `setattr`, unconditionally — the repository performs no
validation of the requested status transition (database.py lines 135-141). -/
def apply_update (u : AccountUpdate) (a : TargetAccount) : TargetAccount :=
  { a with
    status := u.status.getD a.status
    last_contacted := match u.last_contacted with
      | some t => some t
      | none => a.last_contacted
    contact_attempts := u.contact_attempts.getD a.contact_attempts }

/-- `DatabaseManager.update_target_account` (database.py lines 135-141):
find the first row with the given username and apply the kwargs to it; when no
row matches, do nothing. -/
def update_target_account (username : String) (u : AccountUpdate) :
    List TargetAccount → List TargetAccount
  | [] => []
  | a :: rest =>
    if a.username = username then apply_update u a :: rest
    else a :: update_target_account username u rest

/-- `OutreachManager._should_skip_account` (outreach_manager.py lines
268-282): skip when `last_contacted` is present and strictly later than seven
days before now, or `contact_attempts >= 3`, or the status is `blocked` or
`not_interested`. -/
def should_skip_account (now : Int) (a : TargetAccount) : Bool :=
  (match a.last_contacted with
    | some lc => decide (lc > now - 604800)
    | none => false)
  || decide (a.contact_attempts ≥ 3)
  || (a.status = "blocked" || a.status = "not_interested")

/-- An `outreach_campaigns` row (database.py lines 59-72), restricted to the
columns the executor reads or writes. -/
structure Campaign where
  target_industry : String
  target_location : String
  accounts_targeted : Nat := 0
  responses_received : Nat := 0
  deriving Repr, DecidableEq

/-- `DatabaseManager.get_target_accounts` with all three filters supplied, as
the executor calls it (database.py lines 118-127): category equals the
industry, the location column contains the location string, the status equals
the requested status. -/
def get_target_accounts (db : List TargetAccount) (industry location status : String) :
    List TargetAccount :=
  db.filter (fun a =>
    a.category = industry && strContains a.location location && a.status = status)

/-- The external inputs consumed while the executor processes one account:
the wall-clock instant of the iteration, whether `get_account_info` returns a
profile, and whether the platform `direct_send` call would succeed. -/
structure OutreachStepEnv where
  now : Int
  fetch_ok : Bool
  send_ok : Bool
  deriving Repr, DecidableEq

/-- The `results` dict of `execute_outreach_batch`. -/
structure BatchResults where
  success : Nat := 0
  failed : Nat := 0
  skipped : Nat := 0
  deriving Repr, DecidableEq

/-- State threaded through the executor's loop: the counters, the shared
client tracker, the repository, and (as an observation of the platform) the
usernames for which a `direct_send` call was actually issued. -/
structure BatchState where
  results : BatchResults := {}
  tracker : RateLimitTracker
  db : List TargetAccount
  sends : List String := []
  deriving Repr, DecidableEq

/-- One iteration of the loop in `OutreachManager.execute_outreach_batch`
(outreach_manager.py lines 111-150): skip ineligible accounts (counting
`skipped`); count a missing profile fetch as `failed`; otherwise call
`send_dm` — on `true` mark the account contacted with `last_contacted = now`
and `contact_attempts + 1` and count `success`, on `false` count `failed`.
`sends` records the username exactly when `send_dm` reaches the platform call
(its internal rate permit was granted). -/
def execute_outreach_step (s : Settings) (st : BatchState) (a : TargetAccount)
    (env : OutreachStepEnv) : BatchState :=
  if should_skip_account env.now a then
    { st with results := { st.results with skipped := st.results.skipped + 1 } }
  else if !env.fetch_ok then
    { st with results := { st.results with failed := st.results.failed + 1 } }
  else
    let attempted := send_dm_attempted s st.tracker env.now
    let r := send_dm s st.tracker env.now env.send_ok
    let sends2 := if attempted then st.sends ++ [a.username] else st.sends
    if r.1 then
      { st with
        results := { st.results with success := st.results.success + 1 }
        tracker := r.2
        db := update_target_account a.username
          { status := some "contacted", last_contacted := some env.now,
            contact_attempts := some (a.contact_attempts + 1) } st.db
        sends := sends2 }
    else
      { st with
        results := { st.results with failed := st.results.failed + 1 }
        tracker := r.2
        sends := sends2 }

/-- The executor loop over the selected batch, with each account paired with
the external inputs of its iteration. -/
def execute_outreach_loop (s : Settings) :
    BatchState → List (TargetAccount × OutreachStepEnv) → BatchState
  | st, [] => st
  | st, p :: rest => execute_outreach_loop s (execute_outreach_step s st p.1 p.2) rest

/-- `OutreachManager.execute_outreach_batch` (outreach_manager.py lines
95-161): select up to `batch_size` pending accounts matching the campaign's
industry and location, run the loop, then add the batch's `success` count to
the campaign's `responses_received`. The step environments for the successive
iterations are supplied in `envs` (paired positionally; iterations beyond
`envs` do not occur). -/
def execute_outreach_batch (s : Settings) (c : Campaign) (tr : RateLimitTracker)
    (db : List TargetAccount) (batch_size : Nat) (envs : List OutreachStepEnv) :
    BatchState × Campaign :=
  let batch := (get_target_accounts db c.target_industry c.target_location "pending").take batch_size
  let final := execute_outreach_loop s { tracker := tr, db := db } (batch.zip envs)
  (final, { c with responses_received := c.responses_received + final.results.success })

/-- An unread inbound DM as `get_unread_dms` reports it, restricted to the
fields response monitoring reads. -/
structure InboundDm where
  username : String
  content : String
  deriving Repr, DecidableEq

/-- `OutreachManager.monitor_responses` (outreach_manager.py lines 183-210):
for every unread DM whose content matches the outreach-response indicators,
set the matching target account's status to `responded` — unconditionally,
whatever its current status. Returns the updated repository. -/
def monitor_responses (db : List TargetAccount) (dms : List InboundDm) :
    List TargetAccount :=
  dms.foldl
    (fun db dm =>
      if om_is_outreach_response dm.content then
        update_target_account dm.username { status := some "responded" } db
      else db)
    db

/-- A candidate account dict as `search_accounts_by_keywords` assembles it
(instagram_client.py lines 130-145), restricted to the fields discovery
reads. -/
structure DiscoveredAccount where
  username : String
  full_name : String := ""
  bio : String := ""
  follower_count : Nat := 0
  following_count : Nat := 0
  post_count : Nat := 0
  is_verified : Bool := false
  is_business : Bool := false
  is_private : Bool := false
  location : String := ""
  deriving Repr, DecidableEq

/-- One step of the `unique_accounts` dict construction (instagram_client.py
lines 148-153): a username not yet present is appended; an already-present
username is replaced in place exactly when the new candidate has a strictly
higher follower count. -/
def insert_unique (acc : List DiscoveredAccount) (a : DiscoveredAccount) :
    List DiscoveredAccount :=
  match acc with
  | [] => [a]
  | b :: rest =>
    if b.username = a.username then
      (if a.follower_count > b.follower_count then a else b) :: rest
    else b :: insert_unique rest a

/-- The deduplication pass of `search_accounts_by_keywords`: fold every
collected candidate through the insertion-ordered dict. -/
def dedup_accounts (accounts : List DiscoveredAccount) : List DiscoveredAccount :=
  accounts.foldl insert_unique []

/-- Collect the per-keyword query results of the loop in
`search_accounts_by_keywords`. The loop body runs inside the single
`try` of the whole function, so the first keyword whose platform query raises
aborts the collection (`none`); otherwise all candidate lists are
concatenated in keyword order. -/
def collect_keyword_results :
    List (Except Unit (List DiscoveredAccount)) → Option (List DiscoveredAccount)
  | [] => some []
  | Except.ok l :: rest => (collect_keyword_results rest).map (fun t => l ++ t)
  | Except.error _ :: _ => none

/-- `InstagramClient.search_accounts_by_keywords` (instagram_client.py lines
113-159), with the platform's per-keyword responses supplied as `results`
(each entry is the already relevance-filtered candidate list for one keyword,
or the exception the platform raised for it). A raised exception anywhere in
the keyword loop lands in the function-level `except`, which returns the
empty list; otherwise the candidates are deduplicated and truncated to
`max_results`. -/
def search_accounts_by_keywords
    (results : List (Except Unit (List DiscoveredAccount))) (max_results : Nat) :
    List DiscoveredAccount :=
  match collect_keyword_results results with
  | some all => (dedup_accounts all).take max_results
  | none => []

/-- `OutreachManager._get_industry_keywords` (outreach_manager.py lines
212-229). -/
def get_industry_keywords (industry : String) : List String :=
  if industry = "real_estate" then
    ["real estate", "property", "realtor", "realty", "homes", "houses",
     "apartments", "condos", "villas", "commercial property", "real estate agent"]
  else if industry = "construction" then
    ["construction", "building", "contractor", "developer", "construction company",
     "building contractor", "construction services", "general contractor"]
  else if industry = "architecture" then
    ["architecture", "architect", "architectural design", "building design",
     "interior design", "landscape architecture", "architectural firm"]
  else [industry]

/-- `OutreachManager._should_target_account` (outreach_manager.py lines
241-266): reject a candidate already present in the repository, a private
account, or one with follower count below 100 or above 100000; otherwise
accept exactly when some industry keyword occurs (lowercased substring) in
the bio or the full name. -/
def should_target_account (db : List TargetAccount) (a : DiscoveredAccount)
    (c : Campaign) : Bool :=
  if db.any (fun b => b.username = a.username) then false
  else if a.is_private then false
  else if a.follower_count < 100 || a.follower_count > 100000 then false
  else
    (get_industry_keywords c.target_industry).any (fun k =>
      strContains (strLower a.bio) (strLower k)
        || strContains (strLower a.full_name) (strLower k))

/-- The row `discover_target_accounts` inserts for an accepted candidate
(outreach_manager.py lines 69-81): status `pending`, category copied from the
campaign's industry. -/
def mk_target_account (a : DiscoveredAccount) (c : Campaign) : TargetAccount :=
  { username := a.username, full_name := a.full_name, bio := a.bio,
    follower_count := a.follower_count, category := c.target_industry,
    location := a.location, status := "pending" }

/-- The save loop of `OutreachManager.discover_target_accounts`
(outreach_manager.py lines 65-82): for each discovered candidate in order,
insert it as a pending row exactly when `_should_target_account` accepts it
against the repository as it stands at that point (the ORM session sees rows
inserted earlier in the same loop). -/
def discover_save_loop (c : Campaign) (db : List TargetAccount)
    (accounts : List DiscoveredAccount) : List TargetAccount :=
  accounts.foldl
    (fun db a =>
      if should_target_account db a c then db ++ [mk_target_account a c] else db)
    db

/-- `OutreachManager.discover_target_accounts` (outreach_manager.py lines
43-93): search (per-keyword results supplied), then filter-and-save each
survivor. Returns the updated repository. -/
def discover_target_accounts (c : Campaign) (db : List TargetAccount)
    (results : List (Except Unit (List DiscoveredAccount))) (max_accounts : Nat) :
    List TargetAccount :=
  discover_save_loop c db (search_accounts_by_keywords results max_accounts)

/-- Result of `AIResponseSystem.analyze_message_sentiment`; when no LLM client
is configured or the call raises, the source returns the fixed triple
neutral/other/low (ai_response_system.py lines 161-165). -/
structure Analysis where
  sentiment : String := "neutral"
  intent : String := "other"
  urgency : String := "low"
  deriving Repr, DecidableEq

/-- The conversation context dict, as the structure of named fields the
orchestrator reads and writes (`.get` defaults become the `Option`/default
values here). -/
structure ConvContext where
  last_message : Option String := none
  last_analysis : Option Analysis := none
  last_interaction : Option Int := none
  message_count : Nat := 0
  is_outreach_response : Bool := false
  outreach_stage : Option String := none
  last_response : Option String := none
  response_time : Option Int := none
  deriving Repr, DecidableEq

/-- `ConversationManager._handle_initial_interest` template
(conversation_manager.py lines 158-160). -/
def handle_initial_interest (s : Settings) : String :=
  "Hi! Thanks for your interest! 😊 " ++ s.studio_name ++
  " specializes in professional creative services for real estate. We offer photography, videography, and marketing materials. Would you like to see some of our work? Check out "
  ++ s.studio_website ++ " or I can send you some examples! ✨"

/-- `ConversationManager._handle_pricing_inquiry` template
(conversation_manager.py lines 162-164). -/
def handle_pricing_inquiry (s : Settings) : String :=
  "Great question! Our pricing varies based on project scope and requirements. For a detailed quote, I\x27d love to learn more about your specific needs. Could you tell me about your project? In the meantime, you can see our portfolio at "
  ++ s.studio_website ++ " 📸"

/-- `ConversationManager._handle_portfolio_request` template
(conversation_manager.py lines 166-168). -/
def handle_portfolio_request (s : Settings) : String :=
  "Absolutely! You can see our full portfolio at " ++ s.studio_website ++
  " 📸 We specialize in real estate photography, property videos, and marketing materials. I can also send you some specific examples if you tell me what type of project you have in mind! ✨"

/-- `ConversationManager._handle_meeting_request` template
(conversation_manager.py lines 170-172). -/
def handle_meeting_request (s : Settings) : String :=
  "That sounds great! I\x27d love to discuss your project in detail. You can reach us at "
  ++ s.studio_email ++
  " to schedule a consultation, or we can continue chatting here. What\x27s the best way to reach you? 📞"

/-- `ConversationManager._generate_outreach_response` (conversation_manager.py
lines 136-156): read `outreach_stage` from the context with default
`initial`, dispatch to the four canned templates, and fall back to the
generic responder (the external `generateReply` capability, passed in as
`generic`) for `initial` or any unrecognized stage. -/
def generate_outreach_response (s : Settings) (generic : String → ConvContext → String)
    (content : String) (ctx : ConvContext) : String :=
  let stage := ctx.outreach_stage.getD "initial"
  if stage = "initial_interest" then handle_initial_interest s
  else if stage = "pricing_inquiry" then handle_pricing_inquiry s
  else if stage = "portfolio_request" then handle_portfolio_request s
  else if stage = "meeting_request" then handle_meeting_request s
  else generic content ctx

/-- `ConversationManager._generate_contextual_response`
(conversation_manager.py lines 103-134): no reply when auto-response is
disabled; the generic responder when the analysis reports high urgency;
otherwise the outreach dispatch when the context carries the
outreach-response flag; otherwise the generic responder. -/
def generate_contextual_response (s : Settings)
    (generic : String → ConvContext → String) (content : String)
    (ctx : ConvContext) (analysis : Analysis) : Option String :=
  if !s.enable_auto_response then none
  else if analysis.urgency = "high" then some (generic content ctx)
  else if ctx.is_outreach_response then
    some (generate_outreach_response s generic content ctx)
  else some (generic content ctx)

/-- A `conversations` row (database.py lines 13-23), restricted to the
columns the orchestrator and the cleanup sweep read or write. -/
structure ConversationRow where
  id : Nat
  instagram_user_id : String
  username : String
  context : ConvContext := {}
  is_active : Bool := true
  last_message_time : Int := 0
  deriving Repr, DecidableEq

/-- A `messages` row (database.py lines 25-35). -/
structure MessageRow where
  conversation_id : Nat
  instagram_message_id : String
  sender_username : String
  content : String
  message_type : String := "text"
  is_from_agent : Bool := false
  deriving Repr, DecidableEq

/-- The conversation side of the repository. -/
structure ChatDb where
  conversations : List ConversationRow := []
  messages : List MessageRow := []
  deriving Repr, DecidableEq

/-- An inbound DM dict as `process_incoming_dm` consumes it. -/
structure DmData where
  username : String
  user_id : String
  content : String
  thread_id : String := ""
  message_id : String := ""
  message_type : String := "text"
  deriving Repr, DecidableEq

/-- Write an updated context back to the row with the given conversation id
(`DatabaseManager.update_conversation_context`). -/
def update_conversation_context (db : ChatDb) (cid : Nat) (ctx : ConvContext) : ChatDb :=
  { db with conversations :=
      db.conversations.map (fun c => if c.id = cid then { c with context := ctx } else c) }

/-- `ConversationManager.process_incoming_dm` (conversation_manager.py lines
22-101). External inputs: the sentiment analysis result, whether the platform
send would succeed, the generic responder, and the current instant `now`.
Returns the updated repository and the reply text (`none` when no reply was
generated or the send failed). -/
def process_incoming_dm (s : Settings) (generic : String → ConvContext → String)
    (analysis : Analysis) (send_ok : Bool) (now : Int) (db : ChatDb)
    (dm : DmData) : ChatDb × Option String :=
  let found := db.conversations.find? (fun c => c.instagram_user_id = dm.user_id)
  let conv : ConversationRow :=
    match found with
    | some c => c
    | none =>
      { id := db.conversations.length + 1, instagram_user_id := dm.user_id,
        username := dm.username, context := { last_interaction := some now } }
  let db := match found with
    | some _ => db
    | none => { db with conversations := db.conversations ++ [conv] }
  let db := { db with messages := db.messages ++
      [{ conversation_id := conv.id, instagram_message_id := dm.message_id,
         sender_username := dm.username, content := dm.content,
         message_type := dm.message_type, is_from_agent := false }] }
  let ctx0 := conv.context
  let ctx1 := { ctx0 with
    last_message := some dm.content
    last_analysis := some analysis
    last_interaction := some now
    message_count := ctx0.message_count + 1 }
  let ctx2 :=
    if cm_is_outreach_response dm.content then
      { ctx1 with is_outreach_response := true
                  outreach_stage := some (determine_outreach_stage dm.content) }
    else ctx1
  let db := update_conversation_context db conv.id ctx2
  match generate_contextual_response s generic dm.content ctx2 analysis with
  | none => (db, none)
  | some reply =>
    if send_ok then
      let db := { db with messages := db.messages ++
          [{ conversation_id := conv.id,
             instagram_message_id := "response_" ++ toString now,
             sender_username := s.instagram_username, content := reply,
             is_from_agent := true }] }
      let ctx3 := { ctx2 with last_response := some reply, response_time := some now }
      (update_conversation_context db conv.id ctx3, some reply)
    else (db, none)

/-- The client instances built by `InstagramAIAgent.__init__` (main_agent.py
lines 30-34): the agent, the conversation manager (conversation_manager.py
line 19) and the outreach manager (outreach_manager.py line 19) each call
`InstagramClient()`, so each holds its own `rate_limit_tracker`. -/
structure AgentClients where
  agent_tracker : RateLimitTracker
  conversation_tracker : RateLimitTracker
  outreach_tracker : RateLimitTracker
  deriving Repr, DecidableEq

/-- `InstagramAIAgent.__init__` at instant `t0`: three freshly constructed
clients, hence three independent trackers. -/
def init_agent_clients (t0 : Int) : AgentClients :=
  { agent_tracker := initTracker t0, conversation_tracker := initTracker t0,
    outreach_tracker := initTracker t0 }

/-- Python-level errors relevant to the cleanup sweep. -/
inductive PyErr where
  | attributeError
  | nameError
  deriving Repr, DecidableEq

/-- Modelled from the source of `InstagramAIAgent._periodic_cleanup`
(main_agent.py lines 181-207): the body evaluates
`self.db_manager.Conversation`, but `DatabaseManager` (database.py) defines
no attribute `Conversation`, so the expression raises `AttributeError`; even
with that name resolved, the filter expression uses `timedelta`, which
main_agent.py never imports (line 8 imports only `datetime` from the module),
so it would raise `NameError`. Every cycle therefore raises before any row is
read or written. -/
def periodic_cleanup_body (_db : ChatDb) : Except PyErr ChatDb :=
  Except.error PyErr.attributeError

/-- One iteration of the `while` loop of `_periodic_cleanup`: the `except`
arm catches the raised error, logs it and sleeps, leaving the repository
untouched. -/
def periodic_cleanup_iteration (db : ChatDb) : ChatDb :=
  match periodic_cleanup_body db with
  | Except.ok db2 => db2
  | Except.error _ => db

/-- The sweep that the body of `_periodic_cleanup` spells out (and that the
claim describes), as it would execute with its two names resolved: every
conversation whose `last_message_time` is strictly before `now` minus seven
days has `is_active` set to `False`; no row is removed. -/
def cleanup_sweep_intended (now : Int) (db : ChatDb) : ChatDb :=
  { db with conversations :=
      db.conversations.map (fun c =>
        if c.last_message_time < now - 604800 then { c with is_active := false } else c) }

/-! Concrete fixtures used by the counterexamples and witnesses below. -/

/-- Ten successful send events at instant `t` (one hourly window's worth under
the default cap). -/
def hourEvents (t : Int) : List SendEvent :=
  List.replicate 10 { now := t, direct_send_ok := true }

/-- Sixty successful send events spread over six hourly windows of one day:
ten sends each at 0s, 3601s, 7202s, 10803s, 14404s and 18005s. -/
def dayEvents : List SendEvent :=
  hourEvents 0 ++ hourEvents 3601 ++ hourEvents 7202 ++ hourEvents 10803 ++
    hourEvents 14404 ++ hourEvents 18005

/-- A pending, never-contacted target account matching the fixture
campaign. -/
def acctAlice : TargetAccount :=
  { username := "alice", category := "real_estate", location := "Dubai" }

/-- A second pending, never-contacted target account matching the fixture
campaign. -/
def acctBob : TargetAccount :=
  { username := "bob", category := "real_estate", location := "Dubai" }

/-- A tracker whose hourly DM counter is already at the default cap with its
window just opened. -/
def exhaustedTracker : RateLimitTracker :=
  { dms_sent := 10, last_dm_reset := 0, outreach_sent := 0, last_outreach_reset := 0 }

/-- The fixture campaign. -/
def campFixture : Campaign := { target_industry := "real_estate", target_location := "Dubai" }

/-- A step environment inside the open window with fetch and platform send
both succeeding. -/
def envOk : OutreachStepEnv := { now := 5, fetch_ok := true, send_ok := true }

/-- A target account whose status is `blocked`. -/
def blockedAcct : TargetAccount := { username := "carol", status := "blocked" }

/-- Duplicate discovery candidates for one username with follower counts 500
and 1500. -/
def dupLow : DiscoveredAccount := { username := "dup", follower_count := 500 }

/-- The higher-follower duplicate of `dupLow`. -/
def dupHigh : DiscoveredAccount := { username := "dup", follower_count := 1500 }

/-- A discovery candidate returned for the first fixture keyword. -/
def discFirst : DiscoveredAccount := { username := "kw1acct", follower_count := 500 }

/-- A discovery candidate returned for the third fixture keyword. -/
def discThird : DiscoveredAccount := { username := "kw3acct", follower_count := 600 }

/-- The sentiment-analysis fallback/low-urgency result. -/
def analysisLow : Analysis := {}

/-- The end-to-end scenario's inbound DM. -/
def dmPricing : DmData :=
  { username := "lead1", user_id := "u1",
    content := "What\x27s the pricing for a property shoot?" }

/-- A conversation repository holding one active conversation whose last
message is at instant 0. -/
def chatDbStale : ChatDb :=
  { conversations :=
      [{ id := 1, instagram_user_id := "u9", username := "old_lead", last_message_time := 0 }] }

/-! Theorems. Shared helper lemmas come first, then one theorem per claim
(with its witness or counterexample where applicable). -/

set_option maxRecDepth 4000

/-- Helper: within one DM window (every event at or before `last_dm_reset`
plus one hour, so the reset branch never fires), the number of `true`
results of `send_dm` is bounded by the cap minus the counter already
consumed. -/
theorem runSendDm_window_le (s : Settings) (events : List SendEvent) :
    ∀ tr : RateLimitTracker, (∀ e ∈ events, e.now ≤ tr.last_dm_reset + 3600) →
      (runSendDm s tr events).1 ≤ s.max_dm_per_hour - tr.dms_sent := by
  induction events with
  | nil => intro tr _; simp [runSendDm]
  | cons e rest ih =>
    intro tr h
    have he := h e (List.mem_cons_self _ _)
    have hrest : ∀ x ∈ rest, x.now ≤ tr.last_dm_reset + 3600 :=
      fun x hx => h x (List.mem_cons_of_mem _ hx)
    have hnr : ¬ (e.now - tr.last_dm_reset > 3600) := by omega
    by_cases hlt : tr.dms_sent < s.max_dm_per_hour
    · cases hok : e.direct_send_ok
      · have ht := ih tr hrest
        simp only [runSendDm, send_dm, check_rate_limit, if_neg hnr, hlt, decide_True,
          Bool.not_true, Bool.false_eq_true, if_false, hok]
        simpa using ht
      · have ht := ih { tr with dms_sent := tr.dms_sent + 1 } (by simpa using hrest)
        simp only [runSendDm, send_dm, check_rate_limit, if_neg hnr, hlt, decide_True,
          Bool.not_true, Bool.false_eq_true, if_false, hok, if_true]
        simp only at ht
        omega
    · have ht := ih tr hrest
      simp only [runSendDm, send_dm, check_rate_limit, if_neg hnr, hlt, decide_False,
        Bool.not_false, if_true]
      simpa using ht

/-- Helper: when the hourly DM counter already stands at the cap and every
iteration instant is inside the open window, the executor loop sends nothing:
the repository, the tracker and the send log are unchanged, every skipped
account increments `skipped`, and every non-skipped account increments
`failed` (missing fetches and quota denials alike). -/
theorem execute_outreach_loop_quota_exhausted (s : Settings)
    (steps : List (TargetAccount × OutreachStepEnv)) :
    ∀ st : BatchState, s.max_dm_per_hour ≤ st.tracker.dms_sent →
      (∀ p ∈ steps, p.2.now ≤ st.tracker.last_dm_reset + 3600) →
      execute_outreach_loop s st steps =
        { results :=
            { success := st.results.success,
              failed := st.results.failed +
                steps.countP (fun p => !(should_skip_account p.2.now p.1)),
              skipped := st.results.skipped +
                steps.countP (fun p => should_skip_account p.2.now p.1) },
          tracker := st.tracker, db := st.db, sends := st.sends } := by
  induction steps with
  | nil => intro st _ _; simp [execute_outreach_loop]
  | cons p rest ih =>
    intro st hcap h
    have hp := h p (List.mem_cons_self _ _)
    have hrest : ∀ x ∈ rest, x.2.now ≤ st.tracker.last_dm_reset + 3600 :=
      fun x hx => h x (List.mem_cons_of_mem _ hx)
    have hnr : ¬ (p.2.now - st.tracker.last_dm_reset > 3600) := by omega
    have hnlt : ¬ (st.tracker.dms_sent < s.max_dm_per_hour) := by omega
    by_cases hskip : should_skip_account p.2.now p.1
    · have hstep : execute_outreach_step s st p.1 p.2 =
          { st with results := { st.results with skipped := st.results.skipped + 1 } } := by
        simp [execute_outreach_step, hskip]
      simp only [execute_outreach_loop]
      rw [hstep, ih { st with results := { st.results with skipped := st.results.skipped + 1 } }
        hcap hrest]
      simp [List.countP_cons, hskip]
      omega
    · by_cases hfetch : p.2.fetch_ok = true
      · have hperm : send_dm_attempted s st.tracker p.2.now = false := by
          simp [send_dm_attempted, check_rate_limit, if_neg hnr, hnlt]
        have hsend : send_dm s st.tracker p.2.now p.2.send_ok = (false, st.tracker) := by
          simp [send_dm, check_rate_limit, if_neg hnr, hnlt]
        have hstep : execute_outreach_step s st p.1 p.2 =
            { st with results := { st.results with failed := st.results.failed + 1 } } := by
          simp [execute_outreach_step, hskip, hfetch, hperm, hsend]
        simp only [execute_outreach_loop]
        rw [hstep, ih { st with results := { st.results with failed := st.results.failed + 1 } }
          hcap hrest]
        simp [List.countP_cons, hskip]
        omega
      · have hstep : execute_outreach_step s st p.1 p.2 =
            { st with results := { st.results with failed := st.results.failed + 1 } } := by
          simp [execute_outreach_step, hskip, hfetch]
        simp only [execute_outreach_loop]
        rw [hstep, ih { st with results := { st.results with failed := st.results.failed + 1 } }
          hcap hrest]
        simp [List.countP_cons, hskip]
        omega

/-- C1: the claim says every send kind is capped within its rolling window
(`max_dm_per_hour` per hour for DM sends, `max_outreach_per_day` per day for
outreach sends). The code enforces only the hourly DM counter: outreach sends
go through `send_dm`, which consults only the `dms` kind, `outreach_sent` is
never incremented by any code path, and `_check_rate_limit('outreach')` has
no caller. Sixty outreach-path sends spread over six hourly windows of a
single day all return `true` — 60 exceeds the daily cap of 50 — while the
outreach counter stays 0; fifty-one bare outreach checks inside one day
likewise all return `true`. -/
theorem C1_outreach_cap_never_enforced :
    (runSendDm defaultSettings (initTracker 0) dayEvents).1 = 60
    ∧ (runSendDm defaultSettings (initTracker 0) dayEvents).2.outreach_sent = 0
    ∧ (∀ e ∈ dayEvents, 0 ≤ e.now ∧ e.now ≤ 86400)
    ∧ (runOutreachCheck defaultSettings (initTracker 0) (List.replicate 51 0)).1 = 51
    ∧ defaultSettings.max_outreach_per_day = 50 := by
  refine ⟨by decide, by decide, by decide, by decide, rfl⟩

/-- C2, counterexample: with the hourly quota already exhausted
(`exhaustedTracker`) and two eligible pending accounts, the batch does not
stop early at the first quota denial: both accounts are processed and both
are counted in `failed` (the claim says neither the denied nor the remaining
account is counted as failed). The repository and the send log are unchanged,
so the accounts do stay pending. -/
theorem C2_counterexample :
    (execute_outreach_batch defaultSettings campFixture exhaustedTracker
      [acctAlice, acctBob] 10 [envOk, envOk]).1.results
        = { success := 0, failed := 2, skipped := 0 }
    ∧ (execute_outreach_batch defaultSettings campFixture exhaustedTracker
      [acctAlice, acctBob] 10 [envOk, envOk]).1.db = [acctAlice, acctBob]
    ∧ (execute_outreach_batch defaultSettings campFixture exhaustedTracker
      [acctAlice, acctBob] 10 [envOk, envOk]).1.sends = [] := by
  refine ⟨by decide, by decide, by decide⟩

/-- C2, amended: when the quota tracker denies the outreach-send permit
(hourly counter at the cap, iteration instants inside the open window), the
batch does not stop early: it iterates through the whole selected batch,
counting every non-skipped account as failed (the quota denial is treated
like a send failure), while no platform send is attempted, the repository is
unchanged (accounts keep status pending) and the tracker is unchanged. -/
theorem C2_quota_denial_counts_failed (s : Settings) (c : Campaign)
    (tr : RateLimitTracker) (db : List TargetAccount) (n : Nat)
    (envs : List OutreachStepEnv)
    (hcap : s.max_dm_per_hour ≤ tr.dms_sent)
    (hwin : ∀ e ∈ envs, e.now ≤ tr.last_dm_reset + 3600) :
    (execute_outreach_batch s c tr db n envs).1.db = db
    ∧ (execute_outreach_batch s c tr db n envs).1.sends = []
    ∧ (execute_outreach_batch s c tr db n envs).1.tracker = tr
    ∧ (execute_outreach_batch s c tr db n envs).1.results.success = 0
    ∧ (execute_outreach_batch s c tr db n envs).1.results.failed =
        (((get_target_accounts db c.target_industry c.target_location "pending").take n).zip
          envs).countP (fun p => !(should_skip_account p.2.now p.1)) := by
  have hz : ∀ p ∈ ((get_target_accounts db c.target_industry c.target_location
      "pending").take n).zip envs, p.2.now ≤ tr.last_dm_reset + 3600 := by
    intro p hp
    exact hwin p.2 (List.of_mem_zip hp).2
  have hmain := execute_outreach_loop_quota_exhausted s
    (((get_target_accounts db c.target_industry c.target_location "pending").take n).zip envs)
    { tracker := tr, db := db } hcap hz
  refine ⟨?_, ?_, ?_, ?_, ?_⟩ <;> simp [execute_outreach_batch, hmain]

/-- C2, witness: the amended theorem applied to the concrete exhausted-quota
batch. -/
theorem C2_witness :
    (execute_outreach_batch defaultSettings campFixture exhaustedTracker
      [acctAlice, acctBob] 10 [envOk, envOk]).1.results.success = 0 :=
  (C2_quota_denial_counts_failed defaultSettings campFixture exhaustedTracker
    [acctAlice, acctBob] 10 [envOk, envOk] (by decide) (by decide)).2.2.2.1

/-- Helper: an executor iteration on an account the eligibility gate rejects
only increments the skipped counter; tracker, repository and send log are
untouched. -/
theorem execute_outreach_step_skip (s : Settings) (st : BatchState) (a : TargetAccount)
    (env : OutreachStepEnv) (h : should_skip_account env.now a = true) :
    execute_outreach_step s st a env =
      { st with results := { st.results with skipped := st.results.skipped + 1 } } := by
  simp [execute_outreach_step, h]

/-- Helper: an executor iteration can only extend the send log with the
iterated account's own username. -/
theorem execute_outreach_step_sends (s : Settings) (st : BatchState) (a : TargetAccount)
    (env : OutreachStepEnv) :
    (execute_outreach_step s st a env).sends = st.sends ∨
    (execute_outreach_step s st a env).sends = st.sends ++ [a.username] := by
  simp only [execute_outreach_step]
  repeat' split
  all_goals simp

/-- Helper: a username that satisfies the skip conditions at every occurrence
in the batch never enters the send log. -/
theorem execute_outreach_loop_not_sent (s : Settings)
    (steps : List (TargetAccount × OutreachStepEnv)) (u : String) :
    ∀ st : BatchState,
      (∀ p ∈ steps, p.1.username = u → should_skip_account p.2.now p.1 = true) →
      u ∉ st.sends → u ∉ (execute_outreach_loop s st steps).sends := by
  induction steps with
  | nil => intro st _ h; simpa [execute_outreach_loop] using h
  | cons p rest ih =>
    intro st hall hu
    have hrest : ∀ x ∈ rest, x.1.username = u → should_skip_account x.2.now x.1 = true :=
      fun x hx => hall x (List.mem_cons_of_mem _ hx)
    simp only [execute_outreach_loop]
    apply ih _ hrest
    by_cases hskip : should_skip_account p.2.now p.1 = true
    · rw [execute_outreach_step_skip s st p.1 p.2 hskip]
      simpa using hu
    · have hne : p.1.username ≠ u := fun he => hskip (hall p (List.mem_cons_self _ _) he)
      have hne2 : ¬ u = p.1.username := fun he => hne he.symm
      rcases execute_outreach_step_sends s st p.1 p.2 with hs | hs <;>
        simp [hs, hu, hne2]

/-- C3: the executor never sends to an ineligible account. (1) An iteration on
an account the eligibility gate rejects only increments `skipped` — no send,
no repository or tracker change. (2) Over a whole batch, a username whose
every occurrence is ineligible never reaches the platform send call. (3) Any
account whose persisted `last_contacted` is strictly less than seven days old
is rejected by the gate, whatever its other fields. (4,5) Concretely, a
6-day-old `last_contacted` is skipped and an 8-day-old one passes the gate
(with 0 attempts and pending status). -/
theorem C3_ineligible_never_sent :
    (∀ (s : Settings) (st : BatchState) (a : TargetAccount) (env : OutreachStepEnv),
        should_skip_account env.now a = true →
        execute_outreach_step s st a env =
          { st with results := { st.results with skipped := st.results.skipped + 1 } })
    ∧ (∀ (s : Settings) (steps : List (TargetAccount × OutreachStepEnv)) (u : String)
          (st : BatchState),
        (∀ p ∈ steps, p.1.username = u → should_skip_account p.2.now p.1 = true) →
        u ∉ st.sends → u ∉ (execute_outreach_loop s st steps).sends)
    ∧ (∀ (now lc : Int) (a : TargetAccount), a.last_contacted = some lc →
        now - lc < 604800 → should_skip_account now a = true)
    ∧ should_skip_account 1000000
        { username := "sixdays", last_contacted := some (1000000 - 518400) } = true
    ∧ should_skip_account 1000000
        { username := "eightdays", last_contacted := some (1000000 - 691200) } = false := by
  refine ⟨execute_outreach_step_skip, execute_outreach_loop_not_sent, ?_, by decide, by decide⟩
  intro now lc a hlc h
  simp [should_skip_account, hlc]
  exact Or.inl (by omega)

/-- C3, witness: the gate theorem applied to a blocked account and to the
concrete 6-day cooldown instance. -/
theorem C3_witness :
    execute_outreach_step defaultSettings { tracker := exhaustedTracker, db := [] }
        blockedAcct envOk
      = { results := { success := 0, failed := 0, skipped := 1 },
          tracker := exhaustedTracker, db := [], sends := [] }
    ∧ should_skip_account 1000000
        { username := "w", last_contacted := some (1000000 - 518400) } = true := by
  constructor
  · have h := C3_ineligible_never_sent.1 defaultSettings
      { tracker := exhaustedTracker, db := [] } blockedAcct envOk (by decide)
    simpa using h
  · exact C3_ineligible_never_sent.2.2.1 1000000 (1000000 - 518400)
      { username := "w", last_contacted := some (1000000 - 518400) } rfl (by omega)

/-- Helper: the dedup insertion produces no new elements — every member of
the result was already in the accumulator or is the inserted candidate. -/
theorem insert_unique_mem (a b : DiscoveredAccount) :
    ∀ acc : List DiscoveredAccount, b ∈ insert_unique acc a → b ∈ acc ∨ b = a := by
  intro acc
  induction acc with
  | nil =>
    intro h
    simp only [insert_unique] at h
    exact Or.inr (by simpa using h)
  | cons x rest ih =>
    intro h
    simp only [insert_unique] at h
    by_cases hx : x.username = a.username
    · rw [if_pos hx] at h
      rcases List.mem_cons.mp h with h1 | h1
      · by_cases hf : a.follower_count > x.follower_count
        · rw [if_pos hf] at h1; exact Or.inr h1
        · rw [if_neg hf] at h1
          subst h1
          exact Or.inl (List.mem_cons_self _ _)
      · exact Or.inl (List.mem_cons_of_mem _ h1)
    · rw [if_neg hx] at h
      rcases List.mem_cons.mp h with h1 | h1
      · subst h1
        exact Or.inl (List.mem_cons_self _ _)
      · rcases ih h1 with h2 | h2
        · exact Or.inl (List.mem_cons_of_mem _ h2)
        · exact Or.inr h2

/-- Helper: the dedup insertion preserves pairwise-distinct usernames. -/
theorem insert_unique_pairwise (a : DiscoveredAccount) :
    ∀ acc : List DiscoveredAccount,
      acc.Pairwise (fun x y => x.username ≠ y.username) →
      (insert_unique acc a).Pairwise (fun x y => x.username ≠ y.username) := by
  intro acc
  induction acc with
  | nil =>
    intro _
    simp [insert_unique]
  | cons x rest ih =>
    intro hp
    rcases List.pairwise_cons.mp hp with ⟨hx, hrest⟩
    simp only [insert_unique]
    by_cases hxa : x.username = a.username
    · rw [if_pos hxa]
      refine List.pairwise_cons.mpr ⟨?_, hrest⟩
      intro y hy
      by_cases hf : a.follower_count > x.follower_count
      · rw [if_pos hf]
        rw [← hxa]
        exact hx y hy
      · rw [if_neg hf]
        exact hx y hy
    · rw [if_neg hxa]
      refine List.pairwise_cons.mpr ⟨?_, ih hrest⟩
      intro y hy
      rcases insert_unique_mem a y rest hy with h1 | h1
      · exact hx y h1
      · subst h1
        exact hxa

/-- Helper: after inserting a candidate, some member of the accumulator holds
its username with at least its follower count. -/
theorem insert_unique_cover_self (a : DiscoveredAccount) :
    ∀ acc : List DiscoveredAccount,
      ∃ b ∈ insert_unique acc a,
        b.username = a.username ∧ a.follower_count ≤ b.follower_count := by
  intro acc
  induction acc with
  | nil => exact ⟨a, by simp [insert_unique]⟩
  | cons x rest ih =>
    simp only [insert_unique]
    by_cases hxa : x.username = a.username
    · rw [if_pos hxa]
      by_cases hf : a.follower_count > x.follower_count
      · rw [if_pos hf]
        exact ⟨a, List.mem_cons_self _ _, rfl, le_refl _⟩
      · rw [if_neg hf]
        exact ⟨x, List.mem_cons_self _ _, hxa, by omega⟩
    · rw [if_neg hxa]
      rcases ih with ⟨b, hb, h1, h2⟩
      exact ⟨b, List.mem_cons_of_mem _ hb, h1, h2⟩

/-- Helper: the dedup insertion never lowers the best follower count recorded
for any username. -/
theorem insert_unique_cover_mono (a c : DiscoveredAccount) :
    ∀ acc : List DiscoveredAccount,
      (∃ b ∈ acc, b.username = c.username ∧ c.follower_count ≤ b.follower_count) →
      ∃ b ∈ insert_unique acc a,
        b.username = c.username ∧ c.follower_count ≤ b.follower_count := by
  intro acc
  induction acc with
  | nil =>
    rintro ⟨b, hb, -⟩
    cases hb
  | cons x rest ih =>
    rintro ⟨b, hb, h1, h2⟩
    simp only [insert_unique]
    by_cases hxa : x.username = a.username
    · rw [if_pos hxa]
      rcases List.mem_cons.mp hb with hbx | hbr
      · subst hbx
        by_cases hf : a.follower_count > b.follower_count
        · rw [if_pos hf]
          exact ⟨a, List.mem_cons_self _ _, hxa.symm.trans h1, by omega⟩
        · rw [if_neg hf]
          exact ⟨b, List.mem_cons_self _ _, h1, h2⟩
      · refine ⟨b, List.mem_cons_of_mem _ hbr, h1, h2⟩
    · rw [if_neg hxa]
      rcases List.mem_cons.mp hb with hbx | hbr
      · subst hbx
        exact ⟨b, List.mem_cons_self _ _, h1, h2⟩
      · rcases ih ⟨b, hbr, h1, h2⟩ with ⟨b2, hb2, g1, g2⟩
        exact ⟨b2, List.mem_cons_of_mem _ hb2, g1, g2⟩

/-- Helper: coverage is preserved along the whole dedup fold. -/
theorem foldl_insert_unique_cover_mono (l : List DiscoveredAccount) (c : DiscoveredAccount) :
    ∀ acc : List DiscoveredAccount,
      (∃ b ∈ acc, b.username = c.username ∧ c.follower_count ≤ b.follower_count) →
      ∃ b ∈ l.foldl insert_unique acc,
        b.username = c.username ∧ c.follower_count ≤ b.follower_count := by
  induction l with
  | nil => intro acc h; simpa using h
  | cons x rest ih =>
    intro acc h
    simp only [List.foldl_cons]
    exact ih _ (insert_unique_cover_mono x c acc h)

/-- Helper: every candidate fed to the dedup fold ends covered by a member of
the result with the same username and at least its follower count. -/
theorem foldl_insert_unique_cover (l : List DiscoveredAccount) :
    ∀ acc : List DiscoveredAccount, ∀ a ∈ l,
      ∃ b ∈ l.foldl insert_unique acc,
        b.username = a.username ∧ a.follower_count ≤ b.follower_count := by
  induction l with
  | nil =>
    intro acc a ha
    cases ha
  | cons x rest ih =>
    intro acc a ha
    simp only [List.foldl_cons]
    rcases List.mem_cons.mp ha with h1 | h1
    · subst h1
      exact foldl_insert_unique_cover_mono rest a (insert_unique acc a)
        (insert_unique_cover_self a acc)
    · exact ih (insert_unique acc x) a h1

/-- Helper: the dedup fold preserves pairwise-distinct usernames. -/
theorem foldl_insert_unique_pairwise (l : List DiscoveredAccount) :
    ∀ acc : List DiscoveredAccount,
      acc.Pairwise (fun x y => x.username ≠ y.username) →
      (l.foldl insert_unique acc).Pairwise (fun x y => x.username ≠ y.username) := by
  induction l with
  | nil => intro acc h; simpa using h
  | cons x rest ih =>
    intro acc h
    simp only [List.foldl_cons]
    exact ih _ (insert_unique_pairwise x acc h)

/-- Helper: in a list with pairwise-distinct usernames, any two members with
the same username coincide. -/
theorem pairwise_username_unique :
    ∀ l : List DiscoveredAccount, l.Pairwise (fun x y => x.username ≠ y.username) →
      ∀ b ∈ l, ∀ b2 ∈ l, b.username = b2.username → b = b2 := by
  intro l
  induction l with
  | nil =>
    intro _ b hb
    cases hb
  | cons x rest ih =>
    intro hp b hb b2 hb2 he
    rcases List.pairwise_cons.mp hp with ⟨hx, hrest⟩
    rcases List.mem_cons.mp hb with h1 | h1 <;> rcases List.mem_cons.mp hb2 with h2 | h2
    · subst h1; subst h2; rfl
    · subst h1
      exact absurd he (hx b2 h2)
    · subst h2
      exact absurd he.symm (hx b h1)
    · exact ih hrest b h1 b2 h2 he

/-- Helper: a candidate the discovery filter accepts is not yet present in
the repository by username. -/
theorem should_target_not_present (db : List TargetAccount) (a : DiscoveredAccount)
    (c : Campaign) (h : should_target_account db a c = true) :
    db.any (fun b => b.username = a.username) = false := by
  by_cases hx : db.any (fun b => b.username = a.username) = true
  · simp [should_target_account, hx] at h
  · simpa using hx

/-- Helper: unfolding one step of the discovery save loop. -/
theorem discover_save_loop_cons (c : Campaign) (db : List TargetAccount)
    (a : DiscoveredAccount) (rest : List DiscoveredAccount) :
    discover_save_loop c db (a :: rest) =
      discover_save_loop c
        (if should_target_account db a c then db ++ [mk_target_account a c] else db)
        rest := rfl

/-- Helper: a username already present in the repository is never inserted
again by the discovery save loop — its row count is unchanged. -/
theorem discover_save_loop_count (c : Campaign) (u : String)
    (accounts : List DiscoveredAccount) :
    ∀ db : List TargetAccount, (∃ b ∈ db, b.username = u) →
      (discover_save_loop c db accounts).countP (fun r => decide (r.username = u)) =
        db.countP (fun r => decide (r.username = u)) := by
  induction accounts with
  | nil => intro db _; simp [discover_save_loop]
  | cons a rest ih =>
    intro db hu
    rw [discover_save_loop_cons]
    by_cases hs : should_target_account db a c = true
    · rw [if_pos hs]
      have hn := should_target_not_present db a c hs
      have hne : ¬ a.username = u := by
        intro he
        rcases hu with ⟨b, hb, hbu⟩
        have hany : db.any (fun b => b.username = a.username) = true :=
          List.any_eq_true.mpr ⟨b, hb, by simp [hbu, he]⟩
        rw [hany] at hn
        cases hn
      have hu2 : ∃ b ∈ db ++ [mk_target_account a c], b.username = u := by
        rcases hu with ⟨b, hb, hbu⟩
        exact ⟨b, List.mem_append_left _ hb, hbu⟩
      rw [ih (db ++ [mk_target_account a c]) hu2]
      simp [List.countP_append, mk_target_account, hne]
    · rw [if_neg hs]
      exact ih db hu

/-- Helper: the discovery save loop preserves distinctness of repository
usernames. -/
theorem discover_save_loop_nodup (c : Campaign) (accounts : List DiscoveredAccount) :
    ∀ db : List TargetAccount, (db.map (fun r => r.username)).Nodup →
      ((discover_save_loop c db accounts).map (fun r => r.username)).Nodup := by
  induction accounts with
  | nil => intro db h; simpa [discover_save_loop] using h
  | cons a rest ih =>
    intro db h
    rw [discover_save_loop_cons]
    by_cases hs : should_target_account db a c = true
    · rw [if_pos hs]
      apply ih
      have hn := should_target_not_present db a c hs
      have hnotin : a.username ∉ db.map (fun r => r.username) := by
        intro hmem
        rcases List.mem_map.mp hmem with ⟨b, hb, hbu⟩
        have hany : db.any (fun b => b.username = a.username) = true :=
          List.any_eq_true.mpr ⟨b, hb, by simp [hbu]⟩
        rw [hany] at hn
        cases hn
      have hforall : ∀ x ∈ db, ¬ x.username = a.username := by
        intro x hx he
        exact hnotin (List.mem_map.mpr ⟨x, hx, he⟩)
      simpa [List.nodup_append, mk_target_account] using ⟨h, hforall⟩
    · rw [if_neg hs]
      exact ih db h

/-- C4: discovery never inserts two target accounts with the same username.
(1) The dedup pass leaves pairwise-distinct usernames; (2) the kept
representative of each username has the maximum follower count among the
colliding candidates; (3,4) for duplicate candidates with follower counts 500
and 1500 the kept candidate is the 1500 one, in either arrival order; (5) a
username already present in the repository is never inserted again by the
discovery save loop; (6) the save loop preserves distinctness of repository
usernames. -/
theorem C4_discovery_never_duplicates :
    (∀ l : List DiscoveredAccount,
        (dedup_accounts l).Pairwise (fun x y => x.username ≠ y.username))
    ∧ (∀ (l : List DiscoveredAccount) (b : DiscoveredAccount), b ∈ dedup_accounts l →
        ∀ a ∈ l, a.username = b.username → a.follower_count ≤ b.follower_count)
    ∧ dedup_accounts [dupLow, dupHigh] = [dupHigh]
    ∧ dedup_accounts [dupHigh, dupLow] = [dupHigh]
    ∧ (∀ (c : Campaign) (u : String) (accounts : List DiscoveredAccount)
          (db : List TargetAccount), (∃ b ∈ db, b.username = u) →
        (discover_save_loop c db accounts).countP (fun r => decide (r.username = u)) =
          db.countP (fun r => decide (r.username = u)))
    ∧ (∀ (c : Campaign) (accounts : List DiscoveredAccount) (db : List TargetAccount),
        (db.map (fun r => r.username)).Nodup →
        ((discover_save_loop c db accounts).map (fun r => r.username)).Nodup) := by
  refine ⟨fun l => foldl_insert_unique_pairwise l [] (by simp), ?_, by decide, by decide,
    fun c u accounts db h => discover_save_loop_count c u accounts db h,
    fun c accounts db h => discover_save_loop_nodup c accounts db h⟩
  intro l b hb a ha he
  rcases foldl_insert_unique_cover l [] a ha with ⟨b2, hb2, g1, g2⟩
  have hbb : b2 = b :=
    pairwise_username_unique (dedup_accounts l)
      (foldl_insert_unique_pairwise l [] (by simp)) b2 hb2 b hb (g1.trans he.symm.symm)
  subst hbb
  exact g2

/-- C4, witness: the maximality conjunct applied to the concrete duplicate
pair, and the no-reinsertion conjunct applied to a one-row repository. -/
theorem C4_witness :
    dupLow.follower_count ≤ dupHigh.follower_count
    ∧ (discover_save_loop campFixture [blockedAcct] [dupLow]).countP
        (fun r => decide (r.username = "carol")) =
      [blockedAcct].countP (fun r => decide (r.username = "carol")) :=
  ⟨C4_discovery_never_duplicates.2.1 [dupLow, dupHigh] dupHigh (by decide) dupLow
      (by decide) (by decide),
    C4_discovery_never_duplicates.2.2.2.2.1 campFixture "carol" [dupLow] [blockedAcct]
      ⟨blockedAcct, by decide, rfl⟩⟩

/-- C5: the stage classifier is a pure function evaluating the keyword groups
in the fixed order pricing, portfolio, meeting, interest with first match
winning and `initial` as default; concretely it maps the three sample inputs
to `pricing_inquiry`, `meeting_request` and `initial`. -/
theorem C5_classifier_priority :
    (∀ t : String,
      (matchesAny pricing_words (strLower t) = true →
        determine_outreach_stage t = "pricing_inquiry")
      ∧ (matchesAny pricing_words (strLower t) = false →
          matchesAny portfolio_words (strLower t) = true →
          determine_outreach_stage t = "portfolio_request")
      ∧ (matchesAny pricing_words (strLower t) = false →
          matchesAny portfolio_words (strLower t) = false →
          matchesAny meeting_words (strLower t) = true →
          determine_outreach_stage t = "meeting_request")
      ∧ (matchesAny pricing_words (strLower t) = false →
          matchesAny portfolio_words (strLower t) = false →
          matchesAny meeting_words (strLower t) = false →
          matchesAny interest_words (strLower t) = true →
          determine_outreach_stage t = "initial_interest")
      ∧ (matchesAny pricing_words (strLower t) = false →
          matchesAny portfolio_words (strLower t) = false →
          matchesAny meeting_words (strLower t) = false →
          matchesAny interest_words (strLower t) = false →
          determine_outreach_stage t = "initial"))
    ∧ determine_outreach_stage "What\x27s your pricing?" = "pricing_inquiry"
    ∧ determine_outreach_stage "Can we set up a call?" = "meeting_request"
    ∧ determine_outreach_stage "hello" = "initial" := by
  refine ⟨?_, by decide, by decide, by decide⟩
  intro t
  refine ⟨?_, ?_, ?_, ?_, ?_⟩
  · intro h1
    simp [determine_outreach_stage, h1]
  · intro h1 h2
    simp [determine_outreach_stage, h1, h2]
  · intro h1 h2 h3
    simp [determine_outreach_stage, h1, h2, h3]
  · intro h1 h2 h3 h4
    simp [determine_outreach_stage, h1, h2, h3, h4]
  · intro h1 h2 h3 h4
    simp [determine_outreach_stage, h1, h2, h3, h4]

/-- C5, witness: the first-match rules applied to two concrete inputs. -/
theorem C5_witness :
    determine_outreach_stage "cost" = "pricing_inquiry"
    ∧ determine_outreach_stage "our work" = "portfolio_request" :=
  ⟨(C5_classifier_priority.1 "cost").1 (by decide),
    (C5_classifier_priority.1 "our work").2.1 (by decide) (by decide)⟩

/-- C6: the reply decision chain. (1) Auto-response disabled means no reply;
auto-response enabled and high urgency means the generic responder whatever
the stage; otherwise the outreach-response flag routes to the stage dispatch;
otherwise the generic responder. (2) The stage dispatch falls back to the
generic responder for `initial` or any unrecognized stage. (3-5) End-to-end:
the pricing scenario DM on a new conversation with defaults and low urgency
yields exactly the canned pricing-inquiry template as the reply, appends
exactly one agent-originated message, and stores stage `pricing_inquiry` —
for every generic responder. -/
theorem C6_reply_decision_chain :
    (∀ (s : Settings) (g : String → ConvContext → String) (content : String)
        (ctx : ConvContext) (an : Analysis),
      (s.enable_auto_response = false →
        generate_contextual_response s g content ctx an = none)
      ∧ (s.enable_auto_response = true → an.urgency = "high" →
          generate_contextual_response s g content ctx an = some (g content ctx))
      ∧ (s.enable_auto_response = true → ¬ an.urgency = "high" →
          ctx.is_outreach_response = true →
          generate_contextual_response s g content ctx an =
            some (generate_outreach_response s g content ctx))
      ∧ (s.enable_auto_response = true → ¬ an.urgency = "high" →
          ctx.is_outreach_response = false →
          generate_contextual_response s g content ctx an = some (g content ctx)))
    ∧ (∀ (s : Settings) (g : String → ConvContext → String) (content : String)
        (ctx : ConvContext),
        ctx.outreach_stage.getD "initial" ∉
          (["initial_interest", "pricing_inquiry", "portfolio_request",
            "meeting_request"] : List String) →
        generate_outreach_response s g content ctx = g content ctx)
    ∧ (∀ g : String → ConvContext → String,
        (process_incoming_dm defaultSettings g analysisLow true 100 {} dmPricing).2
          = some (handle_pricing_inquiry defaultSettings))
    ∧ (∀ g : String → ConvContext → String,
        (process_incoming_dm defaultSettings g analysisLow true 100 {}
          dmPricing).1.messages.countP (fun m => m.is_from_agent) = 1)
    ∧ (∀ g : String → ConvContext → String,
        (process_incoming_dm defaultSettings g analysisLow true 100 {}
          dmPricing).1.conversations.map (fun c => c.context.outreach_stage)
          = [some "pricing_inquiry"]) := by
  refine ⟨?_, ?_, fun g => rfl, fun g => rfl, fun g => rfl⟩
  · intro s g content ctx an
    refine ⟨?_, ?_, ?_, ?_⟩
    · intro h1
      simp [generate_contextual_response, h1]
    · intro h1 h2
      simp [generate_contextual_response, h1, h2]
    · intro h1 h2 h3
      simp [generate_contextual_response, h1, h2, h3]
    · intro h1 h2 h3
      simp [generate_contextual_response, h1, h2, h3]
  · intro s g content ctx h
    simp only [List.mem_cons, List.not_mem_nil, or_false, not_or] at h
    obtain ⟨h1, h2, h3, h4⟩ := h
    simp [generate_outreach_response, h1, h2, h3, h4]

/-- C6, witness: the chain applied at concrete inputs — auto-response off
gives no reply, and the concrete pricing scenario yields the template. -/
theorem C6_witness :
    generate_contextual_response { defaultSettings with enable_auto_response := false }
      (fun _ _ => "generic") "hi" {} analysisLow = none
    ∧ (process_incoming_dm defaultSettings (fun _ _ => "generic") analysisLow true 100 {}
        dmPricing).2 = some (handle_pricing_inquiry defaultSettings) :=
  ⟨(C6_reply_decision_chain.1 { defaultSettings with enable_auto_response := false }
      (fun _ _ => "generic") "hi" {} analysisLow).1 rfl,
    C6_reply_decision_chain.2.2.1 (fun _ _ => "generic")⟩

/-- C7, counterexample: the conversation manager and the outreach manager
each construct their own `InstagramClient`, so their trackers are separate;
ten reply sends and ten outreach sends inside the same hour all succeed,
giving twenty successful sends in one hour against a `max_dm_per_hour` of
ten — the claimed shared cap does not hold across the two send paths. -/
theorem C7_counterexample :
    (runSendDm defaultSettings (init_agent_clients 0).conversation_tracker (hourEvents 0)).1
      + (runSendDm defaultSettings (init_agent_clients 0).outreach_tracker (hourEvents 0)).1
      = 20
    ∧ defaultSettings.max_dm_per_hour = 10
    ∧ (∀ e ∈ hourEvents 0, 0 ≤ e.now ∧ e.now ≤ 3600) := by
  refine ⟨by decide, rfl, by decide⟩

/-- C7, amended: the quota state is per client, not shared. Within one hourly
window each manager's own send path is individually bounded by
`max_dm_per_hour`, so the combined total over the two paths is bounded by
twice `max_dm_per_hour` — not by `max_dm_per_hour` itself. -/
theorem C7_per_client_quota (s : Settings) (t0 : Int)
    (convEvents outEvents : List SendEvent)
    (hc : ∀ e ∈ convEvents, e.now ≤ t0 + 3600)
    (ho : ∀ e ∈ outEvents, e.now ≤ t0 + 3600) :
    (runSendDm s (init_agent_clients t0).conversation_tracker convEvents).1
      ≤ s.max_dm_per_hour
    ∧ (runSendDm s (init_agent_clients t0).outreach_tracker outEvents).1
      ≤ s.max_dm_per_hour
    ∧ (runSendDm s (init_agent_clients t0).conversation_tracker convEvents).1
        + (runSendDm s (init_agent_clients t0).outreach_tracker outEvents).1
      ≤ 2 * s.max_dm_per_hour := by
  have h1 := runSendDm_window_le s convEvents (initTracker t0) hc
  have h2 := runSendDm_window_le s outEvents (initTracker t0) ho
  simp only [initTracker] at h1 h2
  refine ⟨?_, ?_, ?_⟩ <;> simp only [init_agent_clients, initTracker] <;> omega

/-- C7, witness: the per-client bounds at the concrete one-hour fixtures. -/
theorem C7_witness :
    (runSendDm defaultSettings (init_agent_clients 0).conversation_tracker (hourEvents 0)).1
      + (runSendDm defaultSettings (init_agent_clients 0).outreach_tracker (hourEvents 0)).1
      ≤ 2 * defaultSettings.max_dm_per_hour :=
  (C7_per_client_quota defaultSettings 0 (hourEvents 0) (hourEvents 0)
    (by decide) (by decide)).2.2

/-- C8, counterexample: `blocked` is not absorbing. A blocked account whose
username matches an inbound DM containing an outreach-response indicator is
set to `responded` by response monitoring — the repository boundary applies
the write with no transition validation. -/
theorem C8_counterexample :
    blockedAcct.status = "blocked"
    ∧ monitor_responses [blockedAcct] [{ username := "carol", content := "thanks" }]
        = [{ blockedAcct with status := "responded" }]
    ∧ (monitor_responses [blockedAcct]
        [{ username := "carol", content := "thanks" }]).map (fun a => a.status)
        = ["responded"] := by
  refine ⟨rfl, by decide, by decide⟩

/-- C8, amended: the repository performs no status-transition validation:
`update_target_account` writes whatever kwargs are passed onto the first row
with the matching username, whatever its current status, and response
monitoring unconditionally requests status `responded` for any account whose
username matches an indicator-bearing DM. -/
theorem C8_no_transition_validation :
    (∀ (pre post : List TargetAccount) (a : TargetAccount) (u : AccountUpdate),
        (∀ b ∈ pre, ¬ b.username = a.username) →
        update_target_account a.username u (pre ++ a :: post)
          = pre ++ apply_update u a :: post)
    ∧ (∀ (a : TargetAccount) (st : String),
        (apply_update { status := some st } a).status = st)
    ∧ (∀ (db : List TargetAccount) (dm : InboundDm),
        om_is_outreach_response dm.content = true →
        monitor_responses db [dm]
          = update_target_account dm.username { status := some "responded" } db) := by
  refine ⟨?_, fun a st => rfl, ?_⟩
  · intro pre post a u
    induction pre with
    | nil =>
      intro _
      simp [update_target_account]
    | cons x rest ih =>
      intro h
      have hx : ¬ x.username = a.username := h x (List.mem_cons_self _ _)
      simp only [List.cons_append, update_target_account, if_neg hx, List.append_eq]
      rw [ih (fun b hb => h b (List.mem_cons_of_mem _ hb))]
  · intro db dm h
    simp [monitor_responses, h]

/-- C8, witness: the unvalidated write applied to the concrete blocked
account. -/
theorem C8_witness :
    update_target_account blockedAcct.username { status := some "responded" }
        ([] ++ blockedAcct :: [])
      = [] ++ apply_update { status := some "responded" } blockedAcct :: []
    ∧ monitor_responses [blockedAcct] [{ username := "carol", content := "thanks" }]
        = update_target_account "carol" { status := some "responded" } [blockedAcct] :=
  ⟨C8_no_transition_validation.1 [] [] blockedAcct { status := some "responded" }
      (fun b hb => absurd hb (List.not_mem_nil b)),
    C8_no_transition_validation.2.2 [blockedAcct]
      { username := "carol", content := "thanks" } (by decide)⟩

/-- Helper: a raised platform error anywhere in the keyword loop makes the
whole collection abort. -/
theorem collect_error_none (post : List (Except Unit (List DiscoveredAccount))) :
    ∀ pre : List (Except Unit (List DiscoveredAccount)),
      collect_keyword_results (pre ++ Except.error () :: post) = none := by
  intro pre
  induction pre with
  | nil => rfl
  | cons x rest ih =>
    cases x with
    | ok l => simp [collect_keyword_results, ih]
    | error e => rfl

/-- C9, counterexample: a platform error on the second keyword makes the
whole search return the empty list — the candidate gathered for the first
keyword is discarded and the third keyword's candidate is never returned,
although the same inputs without the error would return both. -/
theorem C9_counterexample :
    search_accounts_by_keywords
        [Except.ok [discFirst], Except.error (), Except.ok [discThird]] 50 = []
    ∧ search_accounts_by_keywords
        [Except.ok [discFirst], Except.ok [discThird]] 50 = [discFirst, discThird] := by
  refine ⟨by decide, by decide⟩

/-- C9, amended: the `try` wraps the entire keyword loop, so a platform error
at any keyword aborts the whole search: `search_accounts_by_keywords` returns
the empty list (candidates of all other keywords included), and discovery
persists nothing — the repository is unchanged. -/
theorem C9_keyword_error_aborts_search
    (pre post : List (Except Unit (List DiscoveredAccount))) (n : Nat)
    (c : Campaign) (db : List TargetAccount) (m : Nat) :
    search_accounts_by_keywords (pre ++ Except.error () :: post) n = []
    ∧ discover_target_accounts c db (pre ++ Except.error () :: post) m = db := by
  have h := collect_error_none post pre
  constructor
  · simp [search_accounts_by_keywords, h]
  · simp [discover_target_accounts, search_accounts_by_keywords, h, discover_save_loop]

/-- C10: the cleanup sweep never marks anything. Its body raises on every
execution (`DatabaseManager` has no `Conversation` attribute and `timedelta`
is not imported in main_agent.py), the loop's `except` swallows the error,
and the repository is returned unchanged — the concrete 8-days-stale
conversation stays active, although the sweep the body spells out (and the
claim describes) would mark it inactive while deleting nothing. -/
theorem C10_cleanup_sweep_never_marks :
    (∀ db : ChatDb, periodic_cleanup_iteration db = db)
    ∧ (periodic_cleanup_iteration chatDbStale).conversations.map (fun c => c.is_active)
        = [true]
    ∧ (cleanup_sweep_intended 700000 chatDbStale).conversations.map (fun c => c.is_active)
        = [false]
    ∧ (cleanup_sweep_intended 700000 chatDbStale).conversations.length
        = chatDbStale.conversations.length
    ∧ periodic_cleanup_body chatDbStale = Except.error PyErr.attributeError := by
  refine ⟨fun db => rfl, by decide, by decide, by decide, rfl⟩
